import Mathlib

/-!
Verification of the ticket/message core of the machka support system.

The embedding is a pure shallow model of `db/dal/support_ticket_dal.py`
(the Ticket Store) and `bot/services/support_service.py` (the Ticket
Service).  A database session together with its pending writes is modelled
as an explicit `Store` value threaded through every operation; timestamps
are abstract `Nat` instants passed in as a `now` argument; Python
`Optional` values are `Option`; Python truthiness on `Optional[int]` and
`Optional[str]` is made explicit.  The ORM model module `db/models.py` is
not part of the sources; the column defaults and constraints it owns
(`closed_at`/`updated_at`/`last_admin_message_at` default NULL,
`is_starred` default false, the foreign key from messages to tickets and
its delete cascade) are modelled from the specification and marked as such
in the doc comments below.
-/

/-- A row of the `support_messages` table (`SupportMessage` in
`db/models.py`, fields as used by `db/dal/support_ticket_dal.py`). -/
structure SupportMessage where
  message_id : Nat
  ticket_id : Nat
  sender_type : String
  sender_id : Option Int
  sender_username : Option String
  content : String
  attachments : Option String
  created_at : Nat
  deriving DecidableEq, Repr

/-- A row of the `support_tickets` table (`SupportTicket` in
`db/models.py`, fields as used by `db/dal/support_ticket_dal.py`). -/
structure SupportTicket where
  ticket_id : Nat
  user_id : Option Int
  subject : Option String
  priority : String
  status : String
  is_starred : Bool
  assigned_admin_id : Option Int
  created_at : Nat
  updated_at : Option Nat
  closed_at : Option Nat
  last_user_message_at : Option Nat
  last_admin_message_at : Option Nat
  deriving DecidableEq, Repr

/-- The durable store: both tables plus the autoincrement counters that
assign `ticket_id` / `message_id`. -/
structure Store where
  tickets : List SupportTicket
  messages : List SupportMessage
  next_ticket_id : Nat
  next_message_id : Nat
  deriving DecidableEq, Repr

def emptyStore : Store :=
  { tickets := [], messages := [], next_ticket_id := 1, next_message_id := 1 }

/-- Python truthiness of an `Optional[int]`: `None` and `0` are falsy. -/
def truthyOptInt : Option Int → Bool
  | none => false
  | some n => n != 0

/-- Python truthiness of an `Optional[str]`: `None` and `""` are falsy. -/
def truthyOptStr : Option String → Bool
  | none => false
  | some s => s != ""

/-- `get_ticket_by_id` (dal lines 72-81): `SELECT` the ticket with the
given id, absent value when no row matches. -/
def get_ticket_by_id (s : Store) (ticket_id : Nat) : Option SupportTicket :=
  s.tickets.find? (fun t => t.ticket_id == ticket_id)

/-- The `UPDATE support_tickets ... WHERE ticket_id = id` pattern used by
the dal: apply `f` to every row whose `ticket_id` matches. -/
def updateTickets (s : Store) (ticket_id : Nat) (f : SupportTicket → SupportTicket) : Store :=
  { s with tickets := s.tickets.map (fun t => if t.ticket_id = ticket_id then f t else t) }

/-- `create_support_ticket` (dal lines 12-31): insert a ticket with
`status="open"`, `created_at=now`, `last_user_message_at=now` iff
`user_id` is truthy (the Python `if user_id` test).
Modelled from the spec: `db/models.py` is not among the sources, so the
remaining columns take the defaults the spec's data model gives them —
`is_starred` false, `assigned_admin_id`, `updated_at`, `closed_at` and
`last_admin_message_at` all NULL at creation. -/
def create_support_ticket (s : Store) (user_id : Option Int) (subject : Option String)
    (priority : String := "normal") (now : Nat) : SupportTicket × Store :=
  let t : SupportTicket :=
    { ticket_id := s.next_ticket_id
      user_id := user_id
      subject := subject
      priority := priority
      status := "open"
      is_starred := false
      assigned_admin_id := none
      created_at := now
      updated_at := none
      closed_at := none
      last_user_message_at := if truthyOptInt user_id then some now else none
      last_admin_message_at := none }
  (t, { s with tickets := s.tickets ++ [t], next_ticket_id := s.next_ticket_id + 1 })

/-- `add_support_message` (dal lines 34-69): insert a message, then update
the owning ticket's `updated_at` plus `last_user_message_at` when
`sender_type == "user"` and `last_admin_message_at` for every other sender
type (the `else` branch of dal lines 56-59).
Modelled from the spec: the foreign key from `SupportMessage.ticket_id` to
`SupportTicket.ticket_id` lives in the absent `db/models.py`; per spec
§4.1 the write against a nonexistent ticket must be rejected, not silently
orphaned, so the insert fails (`Except.error`) when no such ticket exists. -/
def add_support_message (s : Store) (ticket_id : Nat) (sender_type : String)
    (sender_id : Option Int) (content : String) (sender_username : Option String := none)
    (attachments : Option String := none) (now : Nat) :
    Except Unit (SupportMessage × Store) :=
  if (get_ticket_by_id s ticket_id).isNone then .error () else
  let m : SupportMessage :=
    { message_id := s.next_message_id
      ticket_id := ticket_id
      sender_type := sender_type
      sender_id := sender_id
      sender_username := sender_username
      content := content
      attachments := attachments
      created_at := now }
  let s1 : Store := { s with messages := s.messages ++ [m], next_message_id := s.next_message_id + 1 }
  let s2 := updateTickets s1 ticket_id (fun t =>
    if sender_type = "user" then
      { t with updated_at := some now, last_user_message_at := some now }
    else
      { t with updated_at := some now, last_admin_message_at := some now })
  .ok (m, s2)

/-- `get_user_tickets` (dal lines 84-93): all tickets of a user, newest
created first. -/
def get_user_tickets (s : Store) (user_id : Int) : List SupportTicket :=
  ((s.tickets.filter (fun t => t.user_id == some user_id)).insertionSort
    (fun a b => b.created_at ≤ a.created_at))

/-- `update_ticket_status` (dal lines 137-162): set `status` and
`updated_at`; set `closed_at = now` when the new status is `"closed"`,
clear it otherwise; set `assigned_admin_id` only when `admin_id` is not
`None`; return the freshly reloaded ticket (absent when no row matched). -/
def update_ticket_status (s : Store) (ticket_id : Nat) (new_status : String)
    (admin_id : Option Int := none) (now : Nat) : Option SupportTicket × Store :=
  let s' := updateTickets s ticket_id (fun t =>
    { t with
      status := new_status
      updated_at := some now
      closed_at := if new_status = "closed" then some now else none
      assigned_admin_id := match admin_id with
        | some a => some a
        | none => t.assigned_admin_id })
  (get_ticket_by_id s' ticket_id, s')

/-- `toggle_ticket_star` (dal lines 165-178): read the ticket, return
absent when missing; otherwise set `is_starred` to `desired_state` when
given and to the flipped current value otherwise. -/
def toggle_ticket_star (s : Store) (ticket_id : Nat)
    (desired_state : Option Bool := none) : Option SupportTicket × Store :=
  match get_ticket_by_id s ticket_id with
  | none => (none, s)
  | some t =>
    let new_state := match desired_state with
      | some b => b
      | none => !t.is_starred
    let s' := updateTickets s ticket_id (fun u => { u with is_starred := new_state })
    (get_ticket_by_id s' ticket_id, s')

/-- `assign_ticket` (dal lines 181-193): set `assigned_admin_id` (clearing
it when `admin_id` is `None`) and `updated_at`, then return the reloaded
ticket. -/
def assign_ticket (s : Store) (ticket_id : Nat) (admin_id : Option Int) (now : Nat) :
    Option SupportTicket × Store :=
  let s' := updateTickets s ticket_id (fun t =>
    { t with assigned_admin_id := admin_id, updated_at := some now })
  (get_ticket_by_id s' ticket_id, s')

/-- `delete_ticket` (dal lines 196-201): delete the ticket row, returning
the number of rows deleted.
Modelled from the spec: the cascade that deletes the ticket's messages is
declared in the absent `db/models.py`; spec §3 requires a hard delete
cascading to all owned messages. -/
def delete_ticket (s : Store) (ticket_id : Nat) : Nat × Store :=
  let n := (s.tickets.filter (fun t => t.ticket_id == ticket_id)).length
  (n, { s with
        tickets := s.tickets.filter (fun t => t.ticket_id != ticket_id)
        messages := s.messages.filter (fun m => m.ticket_id != ticket_id) })

/-- `get_open_tickets_count` (dal lines 204-208). -/
def get_open_tickets_count (s : Store) : Nat :=
  (s.tickets.filter (fun t => t.status == "open")).length

/-- `get_closed_tickets_count` (dal lines 211-215). -/
def get_closed_tickets_count (s : Store) : Nat :=
  (s.tickets.filter (fun t => t.status == "closed")).length

/-- `get_all_tickets_count` (dal lines 218-220). -/
def get_all_tickets_count (s : Store) : Nat :=
  s.tickets.length

/-- The codomain of the `ORDER BY` key of `get_tickets_paginated` (dal
lines 121-126): a lexicographic product of linear orders, one factor per
`ORDER BY` column. -/
abbrev SortKey :=
  Lex ((List Char) × Lex ((OrderDual Bool) × Lex ((WithTop (OrderDual Nat)) × OrderDual Nat)))

/-- The `ORDER BY` of `get_tickets_paginated` (dal lines 121-126) as a key
into `SortKey`: `status` ascending in the lexicographic string order (the
character list order, so `"closed"` sorts before `"open"`), then
`is_starred` descending (starred first), then `updated_at` descending with
NULLs last (`WithTop` puts NULL above every value), then `created_at`
descending. -/
def sortKey (t : SupportTicket) : SortKey :=
  toLex (t.status.data, toLex (OrderDual.toDual t.is_starred,
    toLex ((t.updated_at.map OrderDual.toDual : WithTop (OrderDual Nat)),
      OrderDual.toDual t.created_at)))

/-- The row order produced by the `ORDER BY` of `get_tickets_paginated`. -/
def ticketLe (a b : SupportTicket) : Prop := sortKey a ≤ sortKey b

instance : DecidableRel ticketLe :=
  fun a b => inferInstanceAs (Decidable (sortKey a ≤ sortKey b))

/-- The `status` filter of `get_tickets_paginated` (dal lines 109-110):
applied only when the Python string is truthy. -/
def statusFilter (status : Option String) (t : SupportTicket) : Bool :=
  if truthyOptStr status then t.status == status.getD "" else true

/-- The `is_starred` filter (dal lines 111-112): applied whenever the
argument `is not None`. -/
def starFilter (is_starred : Option Bool) (t : SupportTicket) : Bool :=
  match is_starred with
  | some b => t.is_starred == b
  | none => true

/-- `subject ILIKE '%' || search_query.strip() || '%'`: case-insensitive
substring test; a NULL subject matches nothing. -/
def containsCI (sub q : String) : Bool :=
  decide ((q.trim.toLower).toList <:+: (sub.toLower).toList)

/-- The `search_query` filter (dal lines 113-115): applied only when the
Python string is truthy. -/
def searchFilter (q : Option String) (t : SupportTicket) : Bool :=
  if truthyOptStr q then
    match t.subject with
    | some sub => containsCI sub (q.getD "")
    | none => false
  else true

/-- The conjunction of the optional filters of `get_tickets_paginated`
(dal lines 108-119). -/
def ticketMatches (status : Option String) (is_starred : Option Bool)
    (search_query : Option String) (t : SupportTicket) : Bool :=
  statusFilter status t && starFilter is_starred t && searchFilter search_query t

/-- `get_tickets_paginated` (dal lines 96-134): filter, sort by the fixed
`ORDER BY`, apply `OFFSET max(page-1,0)*per_page LIMIT per_page`, and
return the page together with the unpaginated count of matching rows. -/
def get_tickets_paginated (s : Store) (page : Int := 1) (per_page : Nat := 20)
    (status : Option String := none) (is_starred : Option Bool := none)
    (search_query : Option String := none) : List SupportTicket × Nat :=
  let matching := s.tickets.filter (ticketMatches status is_starred search_query)
  let sorted := matching.insertionSort ticketLe
  let off := (max (page - 1) 0).toNat * per_page
  ((sorted.drop off).take per_page, matching.length)

/-- `SupportService.create_ticket_with_message` (service lines 20-44): one
session, create the ticket, add the first message with
`sender_type = "user" if user_id else "system"`, commit, return the
refreshed ticket.  A failure before the commit leaves the session context
without committing, which rolls every pending write back: the model then
returns `none` with the store unchanged. -/
def svc_create_ticket_with_message (s : Store) (user_id : Option Int)
    (subject : Option String) (message : String) (username : Option String := none)
    (now : Nat) : Option SupportTicket × Store :=
  let ts := create_support_ticket s user_id subject "normal" now
  match add_support_message ts.2 ts.1.ticket_id
      (if truthyOptInt user_id then "user" else "system")
      user_id message username none now with
  | .error _ => (none, s)
  | .ok ms => (get_ticket_by_id ms.2 ts.1.ticket_id, ms.2)

/-- `SupportService.add_user_message` (service lines 46-74): look the
ticket up, return absent (store untouched, nothing committed) when it does
not exist; otherwise add a `"user"` message and, when the ticket's status
read before the insert was `"closed"`, reopen it within the same session
before the single commit. -/
def svc_add_user_message (s : Store) (ticket_id : Nat) (user_id : Option Int)
    (message : String) (username : Option String := none) (now : Nat) :
    Option SupportMessage × Store :=
  match get_ticket_by_id s ticket_id with
  | none => (none, s)
  | some t =>
    match add_support_message s ticket_id "user" user_id message username none now with
    | .error _ => (none, s)
    | .ok ms =>
      let s2 := if t.status = "closed"
        then (update_ticket_status ms.2 ticket_id "open" none now).2
        else ms.2
      (some ms.1, s2)

/-- `SupportService.add_admin_message` (service lines 76-97): same
lookup/absent contract, adds an `"admin"` message, no status side
effect. -/
def svc_add_admin_message (s : Store) (ticket_id : Nat) (admin_id : Option Int)
    (message : String) (username : Option String := none) (now : Nat) :
    Option SupportMessage × Store :=
  match get_ticket_by_id s ticket_id with
  | none => (none, s)
  | some _ =>
    match add_support_message s ticket_id "admin" admin_id message username none now with
    | .error _ => (none, s)
    | .ok ms => (some ms.1, ms.2)

/-- `SupportService.get_ticket` (service lines 99-101). -/
def svc_get_ticket (s : Store) (ticket_id : Nat) : Option SupportTicket :=
  get_ticket_by_id s ticket_id

/-- `SupportService.get_paginated` (service lines 107-124). -/
def svc_get_paginated (s : Store) (page : Int) (per_page : Nat)
    (status : Option String := none) (is_starred : Option Bool := none)
    (search_query : Option String := none) : List SupportTicket × Nat :=
  get_tickets_paginated s page per_page status is_starred search_query

/-- `SupportService.update_status` (service lines 126-141). -/
def svc_update_status (s : Store) (ticket_id : Nat) (new_status : String)
    (admin_id : Option Int := none) (now : Nat) : Option SupportTicket × Store :=
  update_ticket_status s ticket_id new_status admin_id now

/-- `SupportService.toggle_star` (service lines 143-151). -/
def svc_toggle_star (s : Store) (ticket_id : Nat)
    (desired_state : Option Bool := none) : Option SupportTicket × Store :=
  toggle_ticket_star s ticket_id desired_state

/-- `SupportService.assign` (service lines 153-161). -/
def svc_assign (s : Store) (ticket_id : Nat) (admin_id : Option Int) (now : Nat) :
    Option SupportTicket × Store :=
  assign_ticket s ticket_id admin_id now

/-- `SupportService.delete_ticket` (service lines 163-167): true iff a row
was deleted. -/
def svc_delete_ticket (s : Store) (ticket_id : Nat) : Bool × Store :=
  let ns := delete_ticket s ticket_id
  (decide (ns.1 > 0), ns.2)

/-- `SupportService.get_counts` (service lines 169-174). -/
def svc_get_counts (s : Store) : Nat × Nat × Nat :=
  (get_open_tickets_count s, get_closed_tickets_count s, get_all_tickets_count s)

/-- The committed states of the store: everything obtainable from the empty
database through the `SupportService` entry points, which are the only
operations the front ends call. -/
inductive Reachable : Store → Prop where
  | empty : Reachable emptyStore
  | create (s : Store) (user_id : Option Int) (subject : Option String)
      (message : String) (username : Option String) (now : Nat) : Reachable s →
      Reachable (svc_create_ticket_with_message s user_id subject message username now).2
  | userMsg (s : Store) (ticket_id : Nat) (user_id : Option Int)
      (message : String) (username : Option String) (now : Nat) : Reachable s →
      Reachable (svc_add_user_message s ticket_id user_id message username now).2
  | adminMsg (s : Store) (ticket_id : Nat) (admin_id : Option Int)
      (message : String) (username : Option String) (now : Nat) : Reachable s →
      Reachable (svc_add_admin_message s ticket_id admin_id message username now).2
  | setStatus (s : Store) (ticket_id : Nat) (new_status : String)
      (admin_id : Option Int) (now : Nat) : Reachable s →
      Reachable (svc_update_status s ticket_id new_status admin_id now).2
  | star (s : Store) (ticket_id : Nat) (desired_state : Option Bool) : Reachable s →
      Reachable (svc_toggle_star s ticket_id desired_state).2
  | assignOp (s : Store) (ticket_id : Nat) (admin_id : Option Int) (now : Nat) : Reachable s →
      Reachable (svc_assign s ticket_id admin_id now).2
  | del (s : Store) (ticket_id : Nat) : Reachable s →
      Reachable (svc_delete_ticket s ticket_id).2

/-- An open, unstarred sample ticket used to evaluate the model on
concrete inputs. -/
def sampleOpenTicket : SupportTicket :=
  { ticket_id := 1, user_id := some 1, subject := some "Billing", priority := "normal",
    status := "open", is_starred := false, assigned_admin_id := none,
    created_at := 1, updated_at := some 1, closed_at := none,
    last_user_message_at := some 1, last_admin_message_at := none }

/-- A closed sample ticket. -/
def sampleClosedTicket : SupportTicket :=
  { ticket_id := 2, user_id := some 2, subject := some "Login", priority := "normal",
    status := "closed", is_starred := false, assigned_admin_id := none,
    created_at := 2, updated_at := some 2, closed_at := some 3,
    last_user_message_at := some 2, last_admin_message_at := none }

/-- A first message for each sample ticket, so the sample store satisfies
the data-model invariants. -/
def sampleMessage1 : SupportMessage :=
  { message_id := 1, ticket_id := 1, sender_type := "user", sender_id := some 1,
    sender_username := none, content := "Help", attachments := none, created_at := 1 }

def sampleMessage2 : SupportMessage :=
  { message_id := 2, ticket_id := 2, sender_type := "user", sender_id := some 2,
    sender_username := none, content := "Locked out", attachments := none, created_at := 2 }

/-- A concrete store holding one open and one closed ticket. -/
def sampleStore : Store :=
  { tickets := [sampleOpenTicket, sampleClosedTicket]
    messages := [sampleMessage1, sampleMessage2]
    next_ticket_id := 3, next_message_id := 3 }

/-- Modelled from the spec: the sort key the specification sentence
describes — "status ascending with open before closed", then starred
first, then most-recently-updated first with NULLs last, then
newest-created first.  Only the first factor differs from `sortKey`:
the spec puts `"open"` rows first. -/
def specSortKey (t : SupportTicket) :
    Lex (Nat × Lex ((OrderDual Bool) × Lex ((WithTop (OrderDual Nat)) × OrderDual Nat))) :=
  toLex ((if t.status = "open" then 0 else 1), toLex (OrderDual.toDual t.is_starred,
    toLex ((t.updated_at.map OrderDual.toDual : WithTop (OrderDual Nat)),
      OrderDual.toDual t.created_at)))

/-- Modelled from the spec: the row order claimed by the spec sentence for
`getPaginated` (open before closed). -/
def specTicketLe (a b : SupportTicket) : Prop := specSortKey a ≤ specSortKey b

instance : DecidableRel specTicketLe :=
  fun a b => inferInstanceAs (Decidable (specSortKey a ≤ specSortKey b))

/-- The two-sided timestamp/message invariant of the data model, in the
form the code maintains: `last_user_message_at` tracks user-authored
messages, `last_admin_message_at` tracks every other (admin- or
system-authored) message. -/
def TimestampInv (s : Store) : Prop :=
  ∀ t ∈ s.tickets,
    (t.last_user_message_at ≠ none ↔
      ∃ m ∈ s.messages, m.ticket_id = t.ticket_id ∧ m.sender_type = "user") ∧
    (t.last_admin_message_at ≠ none ↔
      ∃ m ∈ s.messages, m.ticket_id = t.ticket_id ∧ m.sender_type ≠ "user")

/-- Bookkeeping invariant of every committed store: row ids never reach the
autoincrement counter, and the timestamp invariant holds. -/
def StoreInv (s : Store) : Prop :=
  (∀ t ∈ s.tickets, t.ticket_id < s.next_ticket_id) ∧
  (∀ m ∈ s.messages, m.ticket_id < s.next_ticket_id) ∧
  TimestampInv s

instance : IsTotal SupportTicket ticketLe :=
  ⟨fun a b => le_total (sortKey a) (sortKey b)⟩

instance : IsTrans SupportTicket ticketLe :=
  ⟨fun _ _ _ h1 h2 => le_trans h1 h2⟩

theorem find?_map_ite (l : List SupportTicket) (id : Nat) (f : SupportTicket → SupportTicket)
    (hf : ∀ t, (f t).ticket_id = t.ticket_id) :
    (l.map (fun t => if t.ticket_id = id then f t else t)).find? (fun t => t.ticket_id == id)
      = (l.find? (fun t => t.ticket_id == id)).map f := by
  induction l with
  | nil => rfl
  | cons a l ih =>
    simp only [List.map_cons]
    by_cases h : a.ticket_id = id
    · rw [if_pos h, List.find?_cons_of_pos _ (by simp [hf, h]),
        List.find?_cons_of_pos _ (by simp [h]), Option.map_some']
    · rw [if_neg h, List.find?_cons_of_neg _ (by simp [h]),
        List.find?_cons_of_neg _ (by simp [h]), ih]

theorem get_ticket_by_id_updateTickets (s : Store) (id : Nat) (f : SupportTicket → SupportTicket)
    (hf : ∀ t, (f t).ticket_id = t.ticket_id) :
    get_ticket_by_id (updateTickets s id f) id = (get_ticket_by_id s id).map f :=
  find?_map_ite s.tickets id f hf

theorem updateTickets_not_found (s : Store) (id : Nat) (f : SupportTicket → SupportTicket)
    (h : get_ticket_by_id s id = none) : updateTickets s id f = s := by
  have h' := List.find?_eq_none.mp h
  have hmap : s.tickets.map (fun t => if t.ticket_id = id then f t else t) = s.tickets := by
    have : ∀ t ∈ s.tickets, (if t.ticket_id = id then f t else t) = t := by
      intro t ht
      exact if_neg (by simpa using h' t ht)
    calc s.tickets.map (fun t => if t.ticket_id = id then f t else t)
        = s.tickets.map (fun t => t) := List.map_congr_left this
      _ = s.tickets := List.map_id' s.tickets
  unfold updateTickets
  rw [hmap]

theorem get_ticket_by_id_mem (s : Store) (id : Nat) (t : SupportTicket)
    (h : get_ticket_by_id s id = some t) : t ∈ s.tickets ∧ t.ticket_id = id := by
  refine ⟨List.mem_of_find?_eq_some h, ?_⟩
  have := List.find?_some h
  simpa using this

theorem get_updateTickets_of_found (s : Store) (id : Nat) (t : SupportTicket)
    (h : get_ticket_by_id s id = some t) (f : SupportTicket → SupportTicket)
    (hf : ∀ u, (f u).ticket_id = u.ticket_id) :
    get_ticket_by_id (updateTickets s id f) id = some (f t) := by
  rw [get_ticket_by_id_updateTickets s id f hf, h, Option.map_some']

theorem update_ticket_status_found (s : Store) (id : Nat) (t : SupportTicket)
    (h : get_ticket_by_id s id = some t) (st : String) (aid : Option Int) (now : Nat) :
    update_ticket_status s id st aid now =
      (some { t with
              status := st
              updated_at := some now
              closed_at := if st = "closed" then some now else none
              assigned_admin_id := (match aid with
                | some a => some a
                | none => t.assigned_admin_id) },
       updateTickets s id (fun u =>
         { u with
           status := st
           updated_at := some now
           closed_at := if st = "closed" then some now else none
           assigned_admin_id := (match aid with
             | some a => some a
             | none => u.assigned_admin_id) })) := by
  unfold update_ticket_status
  dsimp only
  rw [get_updateTickets_of_found s id t h]
  · rfl
  · intro u
    rfl

theorem toggle_ticket_star_found (s : Store) (id : Nat) (t : SupportTicket)
    (h : get_ticket_by_id s id = some t) (ds : Option Bool) :
    toggle_ticket_star s id ds =
      (some { t with is_starred := ds.getD (!t.is_starred) },
       updateTickets s id (fun u => { u with is_starred := ds.getD (!t.is_starred) })) := by
  unfold toggle_ticket_star
  rw [h]
  cases ds with
  | none =>
    dsimp only [Option.getD_none]
    rw [get_updateTickets_of_found s id t h]
    intro u
    rfl
  | some b =>
    dsimp only [Option.getD_some]
    rw [get_updateTickets_of_found s id t h]
    intro u
    rfl

/-- C6: for every existing ticket, `updateStatus(id, "closed")` followed by
`updateStatus(id, "open")` yields status `open` and `closed_at` null;
`updateStatus` with the ticket's current status leaves the status unchanged
but still refreshes `updated_at` (and `closed_at` per the closed/open
rule); after any `updateStatus` call, the ticket's `closed_at` is non-null
iff its status is `closed`. -/
theorem updateStatus_algebra (s : Store) (id : Nat) (t : SupportTicket)
    (h : get_ticket_by_id s id = some t) (now1 now2 : Nat) :
    (∃ t2, (svc_update_status (svc_update_status s id "closed" none now1).2 id "open" none now2).1
        = some t2 ∧ t2.status = "open" ∧ t2.closed_at = none) ∧
    (∃ t1, (svc_update_status s id t.status none now1).1 = some t1 ∧
      t1.status = t.status ∧ t1.updated_at = some now1 ∧
      t1.closed_at = (if t.status = "closed" then some now1 else none)) ∧
    (∀ (st : String) (aid : Option Int) (now : Nat) (t' : SupportTicket),
      (svc_update_status s id st aid now).1 = some t' →
      (t'.closed_at ≠ none ↔ t'.status = "closed")) := by
  refine ⟨?_, ?_, ?_⟩
  · have h1 := update_ticket_status_found s id t h "closed" none now1
    have hget1 : get_ticket_by_id (update_ticket_status s id "closed" none now1).2 id
        = (update_ticket_status s id "closed" none now1).1 := rfl
    rw [h1] at hget1
    dsimp only at hget1
    have h2 := update_ticket_status_found _ id _ hget1 "open" none now2
    exact ⟨_, congrArg Prod.fst h2, rfl, by simp⟩
  · have h1 := update_ticket_status_found s id t h t.status none now1
    exact ⟨_, congrArg Prod.fst h1, rfl, rfl, rfl⟩
  · intro st aid now t' ht'
    rw [show svc_update_status s id st aid now = update_ticket_status s id st aid now from rfl,
      update_ticket_status_found s id t h st aid now] at ht'
    dsimp only at ht'
    cases ht'
    by_cases hst : st = "closed" <;> simp [hst]

/-- Witness for `updateStatus_algebra` at a concrete store: ticket 2 of
`sampleStore` exists, and closing then reopening it clears `closed_at`. -/
theorem updateStatus_algebra_witness :
    get_ticket_by_id sampleStore 2 = some sampleClosedTicket ∧
    (∃ t2, (svc_update_status (svc_update_status sampleStore 2 "closed" none 10).2 2 "open" none 11).1
        = some t2 ∧ t2.status = "open" ∧ t2.closed_at = none) :=
  ⟨by decide, (updateStatus_algebra sampleStore 2 sampleClosedTicket (by decide) 10 11).1⟩

/-- C7: for every existing ticket, `toggleStar` twice with no desired state
returns `is_starred` to its original value, and a single `toggleStar` with
a desired state (including `false`) sets `is_starred` to exactly that
value. -/
theorem toggleStar_algebra (s : Store) (id : Nat) (t : SupportTicket)
    (h : get_ticket_by_id s id = some t) :
    (∃ t2, (svc_toggle_star (svc_toggle_star s id none).2 id none).1 = some t2 ∧
      t2.is_starred = t.is_starred) ∧
    (∀ b : Bool, ∃ t1, (svc_toggle_star s id (some b)).1 = some t1 ∧ t1.is_starred = b) := by
  constructor
  · have h1 := toggle_ticket_star_found s id t h none
    have hget1 : get_ticket_by_id (svc_toggle_star s id none).2 id
        = some { t with is_starred := !t.is_starred } := by
      rw [show (svc_toggle_star s id none).2
          = updateTickets s id
              (fun u => { u with is_starred := (none : Option Bool).getD (!t.is_starred) })
          from congrArg Prod.snd h1]
      apply get_updateTickets_of_found s id t h
      intro u
      rfl
    have h2 := toggle_ticket_star_found _ id _ hget1 none
    exact ⟨_, congrArg Prod.fst h2, by simp⟩
  · intro b
    have h1 := toggle_ticket_star_found s id t h (some b)
    exact ⟨_, congrArg Prod.fst h1, rfl⟩

/-- Witness for `toggleStar_algebra`: ticket 1 of `sampleStore` exists and
double-toggling restores its unstarred state. -/
theorem toggleStar_algebra_witness :
    get_ticket_by_id sampleStore 1 = some sampleOpenTicket ∧
    (∃ t2, (svc_toggle_star (svc_toggle_star sampleStore 1 none).2 1 none).1 = some t2 ∧
      t2.is_starred = sampleOpenTicket.is_starred) :=
  ⟨by decide, (toggleStar_algebra sampleStore 1 sampleOpenTicket (by decide)).1⟩

/-- C10: for every ticket id absent from the store, `addUserMessage`,
`addAdminMessage`, `getTicket`, `updateStatus`, `toggleStar` and `assign`
all surface the missing target as an absent-value return (never an
exception — each model function is total and returns an `Option`), and the
store is left unchanged. -/
theorem notFound_absent (s : Store) (id : Nat) (h : get_ticket_by_id s id = none)
    (uid aid : Option Int) (msg : String) (un : Option String) (now : Nat)
    (st : String) (ds : Option Bool) :
    svc_add_user_message s id uid msg un now = (none, s) ∧
    svc_add_admin_message s id aid msg un now = (none, s) ∧
    svc_get_ticket s id = none ∧
    svc_update_status s id st aid now = (none, s) ∧
    svc_toggle_star s id ds = (none, s) ∧
    svc_assign s id aid now = (none, s) := by
  refine ⟨?_, ?_, h, ?_, ?_, ?_⟩
  · unfold svc_add_user_message
    rw [h]
  · unfold svc_add_admin_message
    rw [h]
  · unfold svc_update_status update_ticket_status
    dsimp only
    rw [updateTickets_not_found s id _ h, h]
  · unfold svc_toggle_star toggle_ticket_star
    rw [h]
  · unfold svc_assign assign_ticket
    dsimp only
    rw [updateTickets_not_found s id _ h, h]

/-- Witness for `notFound_absent`: the empty store has no ticket 7, and
`updateStatus` there returns an absent value and changes nothing. -/
theorem notFound_absent_witness :
    get_ticket_by_id emptyStore 7 = none ∧
    svc_update_status emptyStore 7 "closed" none 5 = (none, emptyStore) :=
  ⟨by decide,
   (notFound_absent emptyStore 7 (by decide) none none "hi" none 5 "closed" none).2.2.2.1⟩

/-- C5: `getPaginated` with `status="open"` returns only open tickets, and
the returned total equals the number of matching tickets in the whole
store — an expression independent of `page` and `per_page`. -/
theorem paginated_open_filter_total (s : Store) (page : Int) (per_page : Nat) :
    (∀ t ∈ (svc_get_paginated s page per_page (some "open") none none).1, t.status = "open") ∧
    (svc_get_paginated s page per_page (some "open") none none).2 =
      (s.tickets.filter (fun t => t.status == "open")).length := by
  have hm : ∀ t ∈ s.tickets, ticketMatches (some "open") none none t = (t.status == "open") := by
    intro t _
    simp [ticketMatches, statusFilter, starFilter, searchFilter, truthyOptStr]
  constructor
  · intro t ht
    unfold svc_get_paginated get_tickets_paginated at ht
    dsimp only at ht
    have h4 := List.mem_filter.mp
      ((List.mem_insertionSort ticketLe).mp (List.mem_of_mem_drop (List.mem_of_mem_take ht)))
    have h5 := h4.2
    rw [hm t h4.1] at h5
    simpa using h5
  · unfold svc_get_paginated get_tickets_paginated
    dsimp only
    rw [List.filter_congr hm]

/-- C4 (amended): every page returned by `getPaginated` is sorted by the
order the code's `ORDER BY` actually produces: status ascending in
lexicographic string order (closed before open), then starred first, then
most-recently-updated first with NULLs last, then newest-created first. -/
theorem paginated_sorted (s : Store) (page : Int) (per_page : Nat)
    (status : Option String) (is_starred : Option Bool) (q : Option String) :
    List.Sorted ticketLe (svc_get_paginated s page per_page status is_starred q).1 := by
  unfold svc_get_paginated get_tickets_paginated
  dsimp only
  have hs := List.sorted_insertionSort ticketLe (s.tickets.filter (ticketMatches status is_starred q))
  exact List.Pairwise.sublist ((List.take_sublist _ _).trans (List.drop_sublist _ _)) hs

/-- C4 counterexample: the claimed open-before-closed order is false on the
code — with one open and one closed ticket in the store, the returned page
lists the closed ticket first, so the sequence is not sorted by the
spec-described key. -/
theorem paginated_specOrder_counterexample :
    (svc_get_paginated sampleStore 1 20 none none none).1.map (fun t => t.status)
        = ["closed", "open"] ∧
    ¬ List.Pairwise specTicketLe (svc_get_paginated sampleStore 1 20 none none none).1 := by
  constructor
  · decide
  · decide

theorem add_support_message_found (s : Store) (id : Nat) (t : SupportTicket)
    (h : get_ticket_by_id s id = some t) (sty : String) (sid : Option Int)
    (c : String) (su att : Option String) (now : Nat) :
    ∃ m s2, add_support_message s id sty sid c su att now = .ok (m, s2) ∧
      m = { message_id := s.next_message_id
            ticket_id := id
            sender_type := sty
            sender_id := sid
            sender_username := su
            content := c
            attachments := att
            created_at := now } ∧
      s2 = updateTickets { s with
              messages := s.messages ++ [m]
              next_message_id := s.next_message_id + 1 } id
            (fun u => if sty = "user"
              then { u with updated_at := some now, last_user_message_at := some now }
              else { u with updated_at := some now, last_admin_message_at := some now }) := by
  refine ⟨_, _, ?_, rfl, rfl⟩
  unfold add_support_message
  rw [h]
  rfl

/-- C1: on an existing closed ticket, `addUserMessage` adds the user
message and leaves the post-call status `open` (auto-reopen, all within
the single store transition of the call), while `addAdminMessage` adds
the admin message and leaves the status unchanged. -/
theorem addMessage_reopen (s : Store) (id : Nat) (t : SupportTicket)
    (h : get_ticket_by_id s id = some t) (ht : t.status = "closed")
    (user_id admin_id : Option Int) (msg : String) (username : Option String) (now : Nat) :
    (∃ m s', svc_add_user_message s id user_id msg username now = (some m, s') ∧
      m.sender_type = "user" ∧ m.content = msg ∧ m ∈ s'.messages ∧ m.ticket_id = id ∧
      ∃ t', get_ticket_by_id s' id = some t' ∧ t'.status = "open") ∧
    (∃ m s', svc_add_admin_message s id admin_id msg username now = (some m, s') ∧
      m.sender_type = "admin" ∧ m ∈ s'.messages ∧ m.ticket_id = id ∧
      ∃ t', get_ticket_by_id s' id = some t' ∧ t'.status = t.status) := by
  constructor
  · obtain ⟨m, s2, hadd, hm, hs2⟩ :=
      add_support_message_found s id t h "user" user_id msg username none now
    have hsvc : svc_add_user_message s id user_id msg username now
        = (some m, (update_ticket_status s2 id "open" none now).2) := by
      unfold svc_add_user_message
      rw [h]
      dsimp only
      rw [hadd]
      dsimp only
      rw [ht]
      simp
    have hmem : m ∈ (update_ticket_status s2 id "open" none now).2.messages := by
      show m ∈ s2.messages
      rw [hs2]
      show m ∈ s.messages ++ [m]
      simp
    have hX : get_ticket_by_id { s with
        messages := s.messages ++ [m]
        next_message_id := s.next_message_id + 1 } id = some t := h
    obtain ⟨t2, ht2⟩ : ∃ t2, get_ticket_by_id s2 id = some t2 := by
      rw [hs2]
      refine ⟨_, get_updateTickets_of_found _ id t hX _ ?_⟩
      intro u
      rfl
    have hfin : get_ticket_by_id (update_ticket_status s2 id "open" none now).2 id
        = (update_ticket_status s2 id "open" none now).1 := rfl
    have h2 := update_ticket_status_found s2 id t2 ht2 "open" none now
    refine ⟨m, _, hsvc, ?_, ?_, hmem, ?_, ?_⟩
    · rw [hm]
    · rw [hm]
    · rw [hm]
    · exact ⟨_, by rw [hfin]; exact congrArg Prod.fst h2, rfl⟩
  · obtain ⟨m, s2, hadd, hm, hs2⟩ :=
      add_support_message_found s id t h "admin" admin_id msg username none now
    have hsvc : svc_add_admin_message s id admin_id msg username now = (some m, s2) := by
      unfold svc_add_admin_message
      rw [h]
      dsimp only
      rw [hadd]
    have hX : get_ticket_by_id { s with
        messages := s.messages ++ [m]
        next_message_id := s.next_message_id + 1 } id = some t := h
    obtain ⟨t2, ht2, hst2⟩ : ∃ t2, get_ticket_by_id s2 id = some t2 ∧ t2.status = t.status := by
      rw [hs2]
      refine ⟨_, get_updateTickets_of_found _ id t hX _ ?_, ?_⟩
      · intro u
        rfl
      · rfl
    refine ⟨m, s2, hsvc, ?_, ?_, ?_, ⟨t2, ht2, hst2⟩⟩
    · rw [hm]
    · rw [hs2]
      show m ∈ s.messages ++ [m]
      simp
    · rw [hm]

/-- Witness for `addMessage_reopen`: ticket 2 of `sampleStore` is closed,
and a user reply reopens it while persisting the message. -/
theorem addMessage_reopen_witness :
    (get_ticket_by_id sampleStore 2 = some sampleClosedTicket ∧
      sampleClosedTicket.status = "closed") ∧
    (∃ m s', svc_add_user_message sampleStore 2 (some 2) "again" none 9 = (some m, s') ∧
      m.sender_type = "user" ∧ m.content = "again" ∧ m ∈ s'.messages ∧ m.ticket_id = 2 ∧
      ∃ t', get_ticket_by_id s' 2 = some t' ∧ t'.status = "open") :=
  ⟨⟨by decide, by decide⟩,
   (addMessage_reopen sampleStore 2 sampleClosedTicket (by decide) (by decide)
     (some 2) (some 7) "again" none 9).1⟩

theorem exists_msg_append (msgs : List SupportMessage) (mN : SupportMessage)
    (tid : Nat) (P : SupportMessage → Prop)
    (hP : ¬ (mN.ticket_id = tid ∧ P mN)) :
    (∃ m ∈ msgs ++ [mN], m.ticket_id = tid ∧ P m) ↔
      (∃ m ∈ msgs, m.ticket_id = tid ∧ P m) := by
  constructor
  · rintro ⟨m, hm, hPm⟩
    rcases List.mem_append.mp hm with hm' | hm'
    · exact ⟨m, hm', hPm⟩
    · rw [List.mem_singleton] at hm'
      subst hm'
      exact absurd hPm hP
  · rintro ⟨m, hm, hPm⟩
    exact ⟨m, List.mem_append.mpr (Or.inl hm), hPm⟩

theorem exists_msg_filter_ne (msgs : List SupportMessage) (did tid : Nat)
    (hne : tid ≠ did) (P : SupportMessage → Prop) :
    (∃ m ∈ msgs.filter (fun m => m.ticket_id != did), m.ticket_id = tid ∧ P m) ↔
      (∃ m ∈ msgs, m.ticket_id = tid ∧ P m) := by
  constructor
  · rintro ⟨m, hm, hPm⟩
    exact ⟨m, (List.mem_filter.mp hm).1, hPm⟩
  · rintro ⟨m, hm, hPm⟩
    refine ⟨m, List.mem_filter.mpr ⟨hm, ?_⟩, hPm⟩
    simp [hPm.1, hne]

theorem timestampInv_updateTickets (s : Store) (id : Nat) (f : SupportTicket → SupportTicket)
    (hid : ∀ u, (f u).ticket_id = u.ticket_id)
    (hu : ∀ u, (f u).last_user_message_at = u.last_user_message_at)
    (ha : ∀ u, (f u).last_admin_message_at = u.last_admin_message_at)
    (h : TimestampInv s) : TimestampInv (updateTickets s id f) := by
  intro t' ht'
  obtain ⟨t, htmem, heq⟩ := List.mem_map.mp ht'
  have h1 : t'.ticket_id = t.ticket_id := by
    rw [← heq]
    by_cases hc : t.ticket_id = id
    · rw [if_pos hc, hid]
    · rw [if_neg hc]
  have h2 : t'.last_user_message_at = t.last_user_message_at := by
    rw [← heq]
    by_cases hc : t.ticket_id = id
    · rw [if_pos hc, hu]
    · rw [if_neg hc]
  have h3 : t'.last_admin_message_at = t.last_admin_message_at := by
    rw [← heq]
    by_cases hc : t.ticket_id = id
    · rw [if_pos hc, ha]
    · rw [if_neg hc]
  have hmsg : (updateTickets s id f).messages = s.messages := rfl
  rw [hmsg, h1, h2, h3]
  exact h t htmem

theorem storeInv_updateTickets (s : Store) (id : Nat) (f : SupportTicket → SupportTicket)
    (hid : ∀ u, (f u).ticket_id = u.ticket_id)
    (hu : ∀ u, (f u).last_user_message_at = u.last_user_message_at)
    (ha : ∀ u, (f u).last_admin_message_at = u.last_admin_message_at)
    (h : StoreInv s) : StoreInv (updateTickets s id f) := by
  obtain ⟨h1, h2, h3⟩ := h
  refine ⟨?_, h2, timestampInv_updateTickets s id f hid hu ha h3⟩
  intro t' ht'
  obtain ⟨t, htmem, heq⟩ := List.mem_map.mp ht'
  have : t'.ticket_id = t.ticket_id := by
    rw [← heq]
    by_cases hc : t.ticket_id = id
    · rw [if_pos hc, hid]
    · rw [if_neg hc]
  rw [this]
  exact h1 t htmem

theorem storeInv_add_existing (s : Store) (id : Nat) (t : SupportTicket)
    (h : get_ticket_by_id s id = some t) (sty : String) (sid : Option Int) (c : String)
    (su att : Option String) (now : Nat) (inv : StoreInv s) :
    StoreInv (updateTickets { s with
        messages := s.messages ++ [{ message_id := s.next_message_id
                                     ticket_id := id
                                     sender_type := sty
                                     sender_id := sid
                                     sender_username := su
                                     content := c
                                     attachments := att
                                     created_at := now }]
        next_message_id := s.next_message_id + 1 } id
      (fun u => if sty = "user"
        then { u with updated_at := some now, last_user_message_at := some now }
        else { u with updated_at := some now, last_admin_message_at := some now })) := by
  obtain ⟨inv1, inv2, inv3⟩ := inv
  obtain ⟨htm, hti⟩ := get_ticket_by_id_mem s id t h
  have hidlt : id < s.next_ticket_id := hti ▸ inv1 t htm
  refine ⟨?_, ?_, ?_⟩
  · intro t' ht'
    obtain ⟨u, hu, heq⟩ := List.mem_map.mp ht'
    have hid' : t'.ticket_id = u.ticket_id := by
      rw [← heq]
      by_cases hc : u.ticket_id = id
      · rw [if_pos hc]
        split <;> rfl
      · rw [if_neg hc]
    rw [hid']
    exact inv1 u hu
  · intro m hm
    rcases List.mem_append.mp hm with hm' | hm'
    · exact inv2 m hm'
    · rw [List.mem_singleton] at hm'
      subst hm'
      exact hidlt
  · intro t' ht'
    obtain ⟨u, hu, heq⟩ := List.mem_map.mp ht'
    dsimp only at heq
    dsimp only [updateTickets]
    by_cases hc : u.ticket_id = id
    · rw [if_pos hc] at heq
      by_cases hsty : sty = "user"
      · rw [if_pos hsty] at heq
        subst heq
        constructor
        · apply iff_of_true
          · simp
          · exact ⟨_, List.mem_append.mpr (Or.inr (List.mem_singleton_self _)), hc.symm, hsty⟩
        · rw [exists_msg_append]
          · exact (inv3 u hu).2
          · intro hb
            exact hb.2 hsty
      · rw [if_neg hsty] at heq
        subst heq
        constructor
        · rw [exists_msg_append]
          · exact (inv3 u hu).1
          · intro hb
            exact hsty hb.2
        · apply iff_of_true
          · simp
          · exact ⟨_, List.mem_append.mpr (Or.inr (List.mem_singleton_self _)), hc.symm, hsty⟩
    · rw [if_neg hc] at heq
      subst heq
      constructor
      · rw [exists_msg_append]
        · exact (inv3 u hu).1
        · intro hb
          exact hc hb.1.symm
      · rw [exists_msg_append]
        · exact (inv3 u hu).2
        · intro hb
          exact hc hb.1.symm

theorem find?_append_fresh (l : List SupportTicket) (t : SupportTicket)
    (hf : ∀ u ∈ l, u.ticket_id ≠ t.ticket_id) :
    (l ++ [t]).find? (fun u => u.ticket_id == t.ticket_id) = some t := by
  induction l with
  | nil => simp [List.find?]
  | cons a l ih =>
    rw [List.cons_append,
      List.find?_cons_of_neg _ (by simp [hf a (List.mem_cons_self a l)]),
      ih (fun u hu => hf u (List.mem_cons_of_mem a hu))]

theorem svc_create_found (s : Store) (user_id : Option Int) (subject : Option String)
    (msg : String) (username : Option String) (now : Nat)
    (hfresh : ∀ u ∈ s.tickets, u.ticket_id ≠ s.next_ticket_id) :
    ∃ t' s', svc_create_ticket_with_message s user_id subject msg username now = (some t', s') ∧
      t'.ticket_id = s.next_ticket_id ∧ t'.status = "open" ∧ t'.closed_at = none ∧
      t'.last_user_message_at = (if truthyOptInt user_id then some now else none) ∧
      t'.last_admin_message_at = (if truthyOptInt user_id then none else some now) ∧
      (∃ mN, s'.messages = s.messages ++ [mN] ∧ mN.ticket_id = s.next_ticket_id ∧
        mN.sender_type = (if truthyOptInt user_id then "user" else "system") ∧
        mN.content = msg) ∧
      s'.tickets = s.tickets ++ [t'] ∧
      s'.next_ticket_id = s.next_ticket_id + 1 := by
  by_cases htr : truthyOptInt user_id = true
  · unfold svc_create_ticket_with_message create_support_ticket
    simp only [htr, if_true]
    set T : SupportTicket :=
      { ticket_id := s.next_ticket_id
        user_id := user_id
        subject := subject
        priority := "normal"
        status := "open"
        is_starred := false
        assigned_admin_id := none
        created_at := now
        updated_at := none
        closed_at := none
        last_user_message_at := some now
        last_admin_message_at := none } with hT
    have hfind : get_ticket_by_id { s with
        tickets := s.tickets ++ [T]
        next_ticket_id := s.next_ticket_id + 1 } s.next_ticket_id = some T :=
      find?_append_fresh s.tickets T hfresh
    obtain ⟨mN, s2, hadd, hm, hs2⟩ :=
      add_support_message_found _ s.next_ticket_id T hfind "user" user_id msg username none now
    rw [hadd]
    dsimp only
    have hgetF : get_ticket_by_id s2 s.next_ticket_id
        = some { T with updated_at := some now, last_user_message_at := some now } := by
      rw [hs2]
      exact get_updateTickets_of_found _ s.next_ticket_id T hfind
        (fun u => if ("user" : String) = "user"
          then { u with updated_at := some now, last_user_message_at := some now }
          else { u with updated_at := some now, last_admin_message_at := some now })
        (fun u => rfl)
    refine ⟨{ T with updated_at := some now, last_user_message_at := some now }, s2,
      by rw [hgetF], rfl, rfl, rfl, rfl, rfl, ⟨mN, ?_, ?_, ?_, ?_⟩, ?_, ?_⟩
    · rw [hs2]
      rfl
    · rw [hm]
    · rw [hm]
    · rw [hm]
    · rw [hs2]
      show (s.tickets ++ [T]).map (fun u => if u.ticket_id = s.next_ticket_id
        then (if ("user" : String) = "user"
          then { u with updated_at := some now, last_user_message_at := some now }
          else { u with updated_at := some now, last_admin_message_at := some now })
        else u) = _
      rw [List.map_append]
      congr 1
      · calc s.tickets.map _ = s.tickets.map (fun u => u) :=
              List.map_congr_left (fun u hu => if_neg (hfresh u hu))
          _ = s.tickets := List.map_id' s.tickets
      · simp [hT]
    · rw [hs2]
      rfl
  · unfold svc_create_ticket_with_message create_support_ticket
    simp only [Bool.not_eq_true] at htr
    simp only [htr, Bool.false_eq_true, if_false]
    set T : SupportTicket :=
      { ticket_id := s.next_ticket_id
        user_id := user_id
        subject := subject
        priority := "normal"
        status := "open"
        is_starred := false
        assigned_admin_id := none
        created_at := now
        updated_at := none
        closed_at := none
        last_user_message_at := none
        last_admin_message_at := none } with hT
    have hfind : get_ticket_by_id { s with
        tickets := s.tickets ++ [T]
        next_ticket_id := s.next_ticket_id + 1 } s.next_ticket_id = some T :=
      find?_append_fresh s.tickets T hfresh
    obtain ⟨mN, s2, hadd, hm, hs2⟩ :=
      add_support_message_found _ s.next_ticket_id T hfind "system" user_id msg username none now
    rw [hadd]
    dsimp only
    have hgetF : get_ticket_by_id s2 s.next_ticket_id
        = some { T with updated_at := some now, last_admin_message_at := some now } := by
      rw [hs2]
      exact get_updateTickets_of_found _ s.next_ticket_id T hfind
        (fun u => if ("system" : String) = "user"
          then { u with updated_at := some now, last_user_message_at := some now }
          else { u with updated_at := some now, last_admin_message_at := some now })
        (fun u => rfl)
    refine ⟨{ T with updated_at := some now, last_admin_message_at := some now }, s2,
      by rw [hgetF], rfl, rfl, rfl, rfl, rfl, ⟨mN, ?_, ?_, ?_, ?_⟩, ?_, ?_⟩
    · rw [hs2]
      rfl
    · rw [hm]
    · rw [hm]
    · rw [hm]
    · rw [hs2]
      show (s.tickets ++ [T]).map (fun u => if u.ticket_id = s.next_ticket_id
        then (if ("system" : String) = "user"
          then { u with updated_at := some now, last_user_message_at := some now }
          else { u with updated_at := some now, last_admin_message_at := some now })
        else u) = _
      rw [List.map_append]
      congr 1
      · calc s.tickets.map _ = s.tickets.map (fun u => u) :=
              List.map_congr_left (fun u hu => if_neg (hfresh u hu))
          _ = s.tickets := List.map_id' s.tickets
      · simp [hT]
    · rw [hs2]
      rfl

theorem storeInv_empty : StoreInv emptyStore := by
  refine ⟨?_, ?_, ?_⟩ <;> intro x hx <;> simp [emptyStore] at hx

theorem storeInv_svc_create (s : Store) (inv : StoreInv s) (user_id : Option Int)
    (subject : Option String) (msg : String) (username : Option String) (now : Nat) :
    StoreInv (svc_create_ticket_with_message s user_id subject msg username now).2 := by
  obtain ⟨inv1, inv2, inv3⟩ := inv
  have hfresh : ∀ u ∈ s.tickets, u.ticket_id ≠ s.next_ticket_id :=
    fun u hu => Nat.ne_of_lt (inv1 u hu)
  obtain ⟨t', s', heq, hid, hst, hcl, hlu, hla, ⟨mN, hmsg, hmid, hmsty, hmc⟩, htk, hnx⟩ :=
    svc_create_found s user_id subject msg username now hfresh
  rw [heq]
  refine ⟨?_, ?_, ?_⟩
  · intro u hu
    rw [show (some t', s').2 = s' from rfl] at hu ⊢
    rw [htk] at hu
    rw [hnx]
    rcases List.mem_append.mp hu with h' | h'
    · exact Nat.lt_succ_of_lt (inv1 u h')
    · rw [List.mem_singleton] at h'
      subst h'
      rw [hid]
      exact Nat.lt_succ_self _
  · intro m hm
    rw [show (some t', s').2 = s' from rfl] at hm ⊢
    rw [hmsg] at hm
    rw [hnx]
    rcases List.mem_append.mp hm with h' | h'
    · exact Nat.lt_succ_of_lt (inv2 m h')
    · rw [List.mem_singleton] at h'
      subst h'
      rw [hmid]
      exact Nat.lt_succ_self _
  · intro u hu
    rw [show (some t', s').2 = s' from rfl] at hu ⊢
    rw [htk] at hu
    rw [hmsg]
    rcases List.mem_append.mp hu with h' | h'
    · have hne : mN.ticket_id ≠ u.ticket_id := by
        rw [hmid]
        exact fun hcon => hfresh u h' hcon.symm
      constructor
      · rw [exists_msg_append]
        · exact (inv3 u h').1
        · intro hb
          exact hne hb.1
      · rw [exists_msg_append]
        · exact (inv3 u h').2
        · intro hb
          exact hne hb.1
    · rw [List.mem_singleton] at h'
      subst h'
      by_cases htr : truthyOptInt user_id = true
      · simp only [htr, if_true] at hlu hla hmsty
        constructor
        · apply iff_of_true
          · rw [hlu]
            simp
          · exact ⟨mN, List.mem_append.mpr (Or.inr (List.mem_singleton_self _)),
              by rw [hmid, hid], hmsty⟩
        · apply iff_of_false
          · rw [hla]
            simp
          · rintro ⟨m, hmm, hmtid, hmty⟩
            rcases List.mem_append.mp hmm with h2 | h2
            · have hlt := inv2 m h2
              rw [hmtid, hid] at hlt
              exact Nat.lt_irrefl _ hlt
            · rw [List.mem_singleton] at h2
              subst h2
              exact hmty hmsty
      · simp only [Bool.not_eq_true] at htr
        simp only [htr, Bool.false_eq_true, if_false] at hlu hla hmsty
        constructor
        · apply iff_of_false
          · rw [hlu]
            simp
          · rintro ⟨m, hmm, hmtid, hmty⟩
            rcases List.mem_append.mp hmm with h2 | h2
            · have hlt := inv2 m h2
              rw [hmtid, hid] at hlt
              exact Nat.lt_irrefl _ hlt
            · rw [List.mem_singleton] at h2
              subst h2
              rw [hmsty] at hmty
              exact absurd hmty (by decide)
        · apply iff_of_true
          · rw [hla]
            simp
          · refine ⟨mN, List.mem_append.mpr (Or.inr (List.mem_singleton_self _)),
              by rw [hmid, hid], ?_⟩
            rw [hmsty]
            decide

theorem storeInv_svc_add_user (s : Store) (inv : StoreInv s) (id : Nat)
    (user_id : Option Int) (msg : String) (username : Option String) (now : Nat) :
    StoreInv (svc_add_user_message s id user_id msg username now).2 := by
  unfold svc_add_user_message
  cases hg : get_ticket_by_id s id with
  | none => exact inv
  | some t =>
    obtain ⟨mN, s2, hadd, hm, hs2⟩ :=
      add_support_message_found s id t hg "user" user_id msg username none now
    rw [hadd]
    dsimp only
    have hinv2 : StoreInv s2 := by
      rw [hs2, hm]
      exact storeInv_add_existing s id t hg "user" user_id msg username none now inv
    by_cases hcl : t.status = "closed"
    · rw [if_pos hcl]
      show StoreInv (updateTickets s2 id (fun u =>
        { u with status := "open", updated_at := some now, closed_at := none }))
      exact storeInv_updateTickets s2 id _ (fun u => rfl) (fun u => rfl) (fun u => rfl) hinv2
    · rw [if_neg hcl]
      exact hinv2

theorem storeInv_svc_add_admin (s : Store) (inv : StoreInv s) (id : Nat)
    (admin_id : Option Int) (msg : String) (username : Option String) (now : Nat) :
    StoreInv (svc_add_admin_message s id admin_id msg username now).2 := by
  unfold svc_add_admin_message
  cases hg : get_ticket_by_id s id with
  | none => exact inv
  | some t =>
    obtain ⟨mN, s2, hadd, hm, hs2⟩ :=
      add_support_message_found s id t hg "admin" admin_id msg username none now
    rw [hadd]
    dsimp only
    rw [hs2, hm]
    exact storeInv_add_existing s id t hg "admin" admin_id msg username none now inv

theorem storeInv_svc_update_status (s : Store) (inv : StoreInv s) (id : Nat)
    (st : String) (aid : Option Int) (now : Nat) :
    StoreInv (svc_update_status s id st aid now).2 :=
  storeInv_updateTickets s id (fun u =>
    { u with
      status := st
      updated_at := some now
      closed_at := if st = "closed" then some now else none
      assigned_admin_id := (match aid with
        | some a => some a
        | none => u.assigned_admin_id) })
    (fun _ => rfl) (fun _ => rfl) (fun _ => rfl) inv

theorem storeInv_svc_toggle (s : Store) (inv : StoreInv s) (id : Nat) (ds : Option Bool) :
    StoreInv (svc_toggle_star s id ds).2 := by
  unfold svc_toggle_star toggle_ticket_star
  cases hg : get_ticket_by_id s id with
  | none => exact inv
  | some t =>
    dsimp only
    exact storeInv_updateTickets s id (fun u =>
      { u with is_starred := (match ds with | some b => b | none => !t.is_starred) })
      (fun _ => rfl) (fun _ => rfl) (fun _ => rfl) inv

theorem storeInv_svc_assign (s : Store) (inv : StoreInv s) (id : Nat)
    (aid : Option Int) (now : Nat) : StoreInv (svc_assign s id aid now).2 :=
  storeInv_updateTickets s id (fun u =>
    { u with assigned_admin_id := aid, updated_at := some now })
    (fun _ => rfl) (fun _ => rfl) (fun _ => rfl) inv

theorem storeInv_svc_delete (s : Store) (inv : StoreInv s) (id : Nat) :
    StoreInv (svc_delete_ticket s id).2 := by
  obtain ⟨inv1, inv2, inv3⟩ := inv
  unfold svc_delete_ticket delete_ticket
  dsimp only
  refine ⟨?_, ?_, ?_⟩
  · intro u hu
    exact inv1 u (List.mem_filter.mp hu).1
  · intro m hm
    exact inv2 m (List.mem_filter.mp hm).1
  · intro u hu
    have hu' := List.mem_filter.mp hu
    have hne : u.ticket_id ≠ id := by simpa using hu'.2
    constructor
    · rw [exists_msg_filter_ne _ id _ hne]
      exact (inv3 u hu'.1).1
    · rw [exists_msg_filter_ne _ id _ hne]
      exact (inv3 u hu'.1).2

theorem reachable_storeInv (s : Store) (h : Reachable s) : StoreInv s := by
  induction h with
  | empty => exact storeInv_empty
  | create s uid subj msg un now _ ih => exact storeInv_svc_create s ih uid subj msg un now
  | userMsg s id uid msg un now _ ih => exact storeInv_svc_add_user s ih id uid msg un now
  | adminMsg s id aid msg un now _ ih => exact storeInv_svc_add_admin s ih id aid msg un now
  | setStatus s id st aid now _ ih => exact storeInv_svc_update_status s ih id st aid now
  | star s id ds _ ih => exact storeInv_svc_toggle s ih id ds
  | assignOp s id aid now _ ih => exact storeInv_svc_assign s ih id aid now
  | del s id _ ih => exact storeInv_svc_delete s ih id

/-- C2 (amended): in every reachable store state, a ticket's
`last_user_message_at` is non-null iff at least one user-authored message
of that ticket exists, and `last_admin_message_at` is non-null iff at
least one non-user message (admin- or system-authored) of that ticket
exists; appending a message updates `last_user_message_at` when the sender
type is `"user"` and `last_admin_message_at` for every other sender type,
leaving the opposite timestamp of every ticket unchanged. -/
theorem timestamps_iff_messages (s : Store) (hs : Reachable s) :
    (∀ t ∈ s.tickets,
      (t.last_user_message_at ≠ none ↔
        ∃ m ∈ s.messages, m.ticket_id = t.ticket_id ∧ m.sender_type = "user") ∧
      (t.last_admin_message_at ≠ none ↔
        ∃ m ∈ s.messages, m.ticket_id = t.ticket_id ∧ m.sender_type ≠ "user")) ∧
    (∀ (s₀ : Store) (id : Nat) (sty : String) (sid : Option Int) (c : String)
        (su att : Option String) (now : Nat) (m : SupportMessage) (s' : Store),
      add_support_message s₀ id sty sid c su att now = .ok (m, s') →
      (sty = "user" →
        s'.tickets.map (fun u => u.last_admin_message_at)
          = s₀.tickets.map (fun u => u.last_admin_message_at)) ∧
      (sty ≠ "user" →
        s'.tickets.map (fun u => u.last_user_message_at)
          = s₀.tickets.map (fun u => u.last_user_message_at))) := by
  constructor
  · exact (reachable_storeInv s hs).2.2
  · intro s₀ id sty sid c su att now m s' hok
    unfold add_support_message at hok
    by_cases hg : (get_ticket_by_id s₀ id).isNone
    · rw [if_pos hg] at hok
      cases hok
    · rw [if_neg hg] at hok
      dsimp only at hok
      injection hok with hpair
      injection hpair with hmN hs'
      constructor
      · intro hsty
        subst hsty
        rw [← hs']
        show ((s₀.tickets.map (fun u => if u.ticket_id = id then
            (if ("user" : String) = "user"
              then { u with updated_at := some now, last_user_message_at := some now }
              else { u with updated_at := some now, last_admin_message_at := some now })
            else u)).map (fun u => u.last_admin_message_at)) = _
        rw [List.map_map]
        apply List.map_congr_left
        intro u _
        by_cases hc : u.ticket_id = id
        · simp [Function.comp, hc]
        · simp [Function.comp, hc]
      · intro hsty
        rw [← hs']
        show ((s₀.tickets.map (fun u => if u.ticket_id = id then
            (if sty = "user"
              then { u with updated_at := some now, last_user_message_at := some now }
              else { u with updated_at := some now, last_admin_message_at := some now })
            else u)).map (fun u => u.last_user_message_at)) = _
        rw [List.map_map]
        apply List.map_congr_left
        intro u _
        by_cases hc : u.ticket_id = id
        · simp [Function.comp, hc, hsty]
        · simp [Function.comp, hc]

/-- Witness for `timestamps_iff_messages`: the ticket of the store reached
by a single user-authored creation satisfies both timestamp iffs. -/
theorem timestamps_iff_messages_witness :
    ∃ t, t ∈ (svc_create_ticket_with_message emptyStore (some 42) (some "B") "Help" none 3).2.tickets ∧
      (t.last_user_message_at ≠ none ↔
        ∃ m ∈ (svc_create_ticket_with_message emptyStore (some 42) (some "B") "Help" none 3).2.messages,
          m.ticket_id = t.ticket_id ∧ m.sender_type = "user") ∧
      (t.last_admin_message_at ≠ none ↔
        ∃ m ∈ (svc_create_ticket_with_message emptyStore (some 42) (some "B") "Help" none 3).2.messages,
          m.ticket_id = t.ticket_id ∧ m.sender_type ≠ "user") :=
  ⟨{ ticket_id := 1, user_id := some 42, subject := some "B", priority := "normal",
     status := "open", is_starred := false, assigned_admin_id := none, created_at := 3,
     updated_at := some 3, closed_at := none, last_user_message_at := some 3,
     last_admin_message_at := none },
   by decide,
   (timestamps_iff_messages _
      (Reachable.create emptyStore (some 42) (some "B") "Help" none 3 Reachable.empty)).1
     { ticket_id := 1, user_id := some 42, subject := some "B", priority := "normal",
       status := "open", is_starred := false, assigned_admin_id := none, created_at := 3,
       updated_at := some 3, closed_at := none, last_user_message_at := some 3,
       last_admin_message_at := none }
     (by decide)⟩

/-- C2 counterexample: the claim as stated is false — a ticket created with
no user gets a system-authored first message, yet its
`last_admin_message_at` is set (the code's `else` branch treats every
non-user sender as admin), even though no admin-authored message exists in
the store; so `last_admin_message_at` is not equivalent to the existence of
an admin-authored message, and a system message does not update a
system-specific timestamp. -/
theorem timestamps_counterexample :
    Reachable (svc_create_ticket_with_message emptyStore none none "boot" none 4).2 ∧
    ((svc_create_ticket_with_message emptyStore none none "boot" none 4).2.tickets.map
      (fun t => t.last_admin_message_at)) = [some 4] ∧
    (∀ m ∈ (svc_create_ticket_with_message emptyStore none none "boot" none 4).2.messages,
      m.sender_type ≠ "admin") :=
  ⟨Reachable.create emptyStore none none "boot" none 4 Reachable.empty, by decide, by decide⟩

/-- C3: on every reachable store, `createTicketWithMessage` — one service
call, whose creation and first-message insert commit together — returns a
ticket with status `open`, `closed_at` null, and exactly one message of
that ticket in the resulting store. -/
theorem createTicketWithMessage_spec (s : Store) (hs : Reachable s)
    (user_id : Option Int) (subject : Option String) (msg : String)
    (username : Option String) (now : Nat) :
    ∃ t' s', svc_create_ticket_with_message s user_id subject msg username now = (some t', s') ∧
      t'.status = "open" ∧ t'.closed_at = none ∧
      (s'.messages.filter (fun m => m.ticket_id == t'.ticket_id)).length = 1 ∧
      t' ∈ s'.tickets := by
  obtain ⟨inv1, inv2, _⟩ := reachable_storeInv s hs
  have hfresh : ∀ u ∈ s.tickets, u.ticket_id ≠ s.next_ticket_id :=
    fun u hu => Nat.ne_of_lt (inv1 u hu)
  obtain ⟨t', s', heq, hid, hst, hcl, _, _, ⟨mN, hmsg, hmid, _, _⟩, htk, _⟩ :=
    svc_create_found s user_id subject msg username now hfresh
  refine ⟨t', s', heq, hst, hcl, ?_, ?_⟩
  · rw [hmsg, List.filter_append]
    have h1 : s.messages.filter (fun m => m.ticket_id == t'.ticket_id) = [] := by
      rw [List.filter_eq_nil_iff]
      intro m hm
      have := Nat.ne_of_lt (inv2 m hm)
      simp [hid, this]
    rw [h1]
    simp [hmid, hid]
  · rw [htk]
    exact List.mem_append.mpr (Or.inr (List.mem_singleton_self t'))

/-- Witness for `createTicketWithMessage_spec`: creation from the empty
store returns an open ticket with null `closed_at` and one message. -/
theorem createTicketWithMessage_spec_witness :
    ∃ t' s', svc_create_ticket_with_message emptyStore (some 42) (some "Billing") "Help" none 5
        = (some t', s') ∧
      t'.status = "open" ∧ t'.closed_at = none ∧
      (s'.messages.filter (fun m => m.ticket_id == t'.ticket_id)).length = 1 ∧
      t' ∈ s'.tickets :=
  createTicketWithMessage_spec emptyStore Reachable.empty (some 42) (some "Billing") "Help" none 5

/-- C8 (amended): `createTicket` sets `last_user_message_at` to the
creation time iff `userId` is truthy — present and nonzero, matching the
code's `if user_id` test — and the first message appended by
`createTicketWithMessage` has sender type `"user"` when `userId` is truthy
and `"system"` otherwise (also for `userId = 0`, which the code treats as
absent). -/
theorem create_userId_truthiness (s : Store) (user_id : Option Int)
    (subject : Option String) (priority msg : String) (username : Option String) (now : Nat)
    (hfresh : ∀ u ∈ s.tickets, u.ticket_id ≠ s.next_ticket_id) :
    ((create_support_ticket s user_id subject priority now).1.last_user_message_at ≠ none
      ↔ truthyOptInt user_id = true) ∧
    ((create_support_ticket s user_id subject priority now).1.last_user_message_at
      = (if truthyOptInt user_id then some now else none)) ∧
    (∃ mN, (svc_create_ticket_with_message s user_id subject msg username now).2.messages
        = s.messages ++ [mN] ∧
      mN.sender_type = (if truthyOptInt user_id then "user" else "system") ∧
      mN.content = msg) := by
  refine ⟨?_, rfl, ?_⟩
  · by_cases htr : truthyOptInt user_id = true <;>
      simp [create_support_ticket, htr]
  · obtain ⟨t', s', heq, _, _, _, _, _, ⟨mN, hmsg, _, hmsty, hmc⟩, _, _⟩ :=
      svc_create_found s user_id subject msg username now hfresh
    refine ⟨mN, ?_, hmsty, hmc⟩
    rw [heq]
    exact hmsg

/-- Witness for `create_userId_truthiness` at the empty store with a
truthy user id. -/
theorem create_userId_truthiness_witness :
    (∀ u ∈ emptyStore.tickets, u.ticket_id ≠ emptyStore.next_ticket_id) ∧
    (((create_support_ticket emptyStore (some 7) none "normal" 3).1.last_user_message_at ≠ none)
      ↔ truthyOptInt (some 7) = true) :=
  ⟨by decide,
   (create_userId_truthiness emptyStore (some 7) none "normal" "m" none 3 (by decide)).1⟩

/-- C8 counterexample: `userId = 0` is a present integer value, yet
`createTicket` leaves `last_user_message_at` null and the first message of
`createTicketWithMessage` is system-authored, because the code tests
Python truthiness (`if user_id`), under which `0` counts as absent. -/
theorem create_userId_zero_counterexample :
    (create_support_ticket emptyStore (some 0) none "normal" 5).1.last_user_message_at = none ∧
    (svc_create_ticket_with_message emptyStore (some 0) none "x" none 5).2.messages.map
      (fun m => m.sender_type) = ["system"] := by
  constructor
  · decide
  · decide

theorem find?_append_self (l : List SupportTicket) (t : SupportTicket) :
    ∃ u, (l ++ [t]).find? (fun x => x.ticket_id == t.ticket_id) = some u ∧
      u.ticket_id = t.ticket_id := by
  cases hfind : (l ++ [t]).find? (fun x => x.ticket_id == t.ticket_id) with
  | some u => exact ⟨u, rfl, by simpa using List.find?_some hfind⟩
  | none =>
    exfalso
    have h := List.find?_eq_none.mp hfind t
      (List.mem_append.mpr (Or.inr (List.mem_singleton_self t)))
    simp at h

theorem updateTickets_matching (s : Store) (id : Nat) (f : SupportTicket → SupportTicket) :
    ∀ u ∈ (updateTickets s id f).tickets, u.ticket_id = id →
      ∃ v ∈ s.tickets, v.ticket_id = id ∧ u = f v := by
  intro u hu hmatch
  obtain ⟨v, hv, hvu⟩ := List.mem_map.mp hu
  by_cases hc : v.ticket_id = id
  · rw [if_pos hc] at hvu
    exact ⟨v, hv, hc, hvu.symm⟩
  · rw [if_neg hc] at hvu
    rw [← hvu] at hmatch
    exact absurd hmatch hc

/-- C9: the multi-step operations are all-or-nothing.  When
`createTicketWithMessage` or `addUserMessage` returns an absent value —
the session's rollback path — the store is exactly the input store, with
no partial write; when they succeed, the complete write set is present in
the one committed store: the created ticket together with its first
message, and the user message together with the ticket's timestamp update
and, for a ticket read as closed, the reopen to `open`. -/
theorem multiStep_allOrNothing (s : Store) (id : Nat)
    (user_id uid : Option Int) (subject : Option String) (msg umsg : String)
    (username uun : Option String) (now unow : Nat) :
    ((svc_create_ticket_with_message s user_id subject msg username now).1 = none →
      (svc_create_ticket_with_message s user_id subject msg username now).2 = s) ∧
    (∀ t', (svc_create_ticket_with_message s user_id subject msg username now).1 = some t' →
      t' ∈ (svc_create_ticket_with_message s user_id subject msg username now).2.tickets ∧
      ∃ m ∈ (svc_create_ticket_with_message s user_id subject msg username now).2.messages,
        m.ticket_id = t'.ticket_id ∧ m.content = msg) ∧
    ((svc_add_user_message s id uid umsg uun unow).1 = none →
      (svc_add_user_message s id uid umsg uun unow).2 = s) ∧
    (∀ m', (svc_add_user_message s id uid umsg uun unow).1 = some m' →
      m' ∈ (svc_add_user_message s id uid umsg uun unow).2.messages ∧
      m'.ticket_id = id ∧ m'.sender_type = "user" ∧
      (∀ u ∈ (svc_add_user_message s id uid umsg uun unow).2.tickets, u.ticket_id = id →
        u.updated_at = some unow ∧ u.last_user_message_at = some unow) ∧
      (∀ t, get_ticket_by_id s id = some t → t.status = "closed" →
        ∀ u ∈ (svc_add_user_message s id uid umsg uun unow).2.tickets, u.ticket_id = id →
          u.status = "open")) := by
  have hcreate : ∃ t2 s2,
      svc_create_ticket_with_message s user_id subject msg username now = (some t2, s2) ∧
      t2 ∈ s2.tickets ∧ t2.ticket_id = s.next_ticket_id ∧
      ∃ mm ∈ s2.messages, mm.ticket_id = s.next_ticket_id ∧ mm.content = msg := by
    unfold svc_create_ticket_with_message create_support_ticket
    dsimp only
    set T : SupportTicket :=
      { ticket_id := s.next_ticket_id
        user_id := user_id
        subject := subject
        priority := "normal"
        status := "open"
        is_starred := false
        assigned_admin_id := none
        created_at := now
        updated_at := none
        closed_at := none
        last_user_message_at := if truthyOptInt user_id then some now else none
        last_admin_message_at := none } with hT
    obtain ⟨tA, hgA, htA⟩ := find?_append_self s.tickets T
    have hgA' : get_ticket_by_id { s with
        tickets := s.tickets ++ [T]
        next_ticket_id := s.next_ticket_id + 1 } s.next_ticket_id = some tA := hgA
    obtain ⟨mN, s2, hadd, hm, hs2⟩ := add_support_message_found _ s.next_ticket_id tA hgA'
        (if truthyOptInt user_id then "user" else "system") user_id msg username none now
    rw [hadd]
    dsimp only
    have hgt : get_ticket_by_id s2 T.ticket_id = some ((fun u =>
        if (if truthyOptInt user_id then "user" else "system") = "user"
          then { u with updated_at := some now, last_user_message_at := some now }
          else { u with updated_at := some now, last_admin_message_at := some now }) tA) := by
      rw [hs2]
      exact get_updateTickets_of_found _ s.next_ticket_id tA hgA'
        (fun u => if (if truthyOptInt user_id then "user" else "system") = "user"
          then { u with updated_at := some now, last_user_message_at := some now }
          else { u with updated_at := some now, last_admin_message_at := some now })
        (fun u => by dsimp only; split <;> rfl)
    refine ⟨(fun u =>
        if (if truthyOptInt user_id then "user" else "system") = "user"
          then { u with updated_at := some now, last_user_message_at := some now }
          else { u with updated_at := some now, last_admin_message_at := some now }) tA, s2,
      by rw [hgt], ?_, ?_, ⟨mN, ?_, ?_, ?_⟩⟩
    · exact (get_ticket_by_id_mem s2 T.ticket_id _ hgt).1
    · dsimp only
      split <;> exact htA
    · rw [hs2]
      show mN ∈ s.messages ++ [mN]
      simp
    · rw [hm]
    · rw [hm]
  obtain ⟨t2, s2, hc, hcmem, hctid, mm, hmmem, hmmtid, hmmc⟩ := hcreate
  refine ⟨?_, ?_, ?_, ?_⟩
  · intro h
    rw [hc] at h
    cases h
  · intro t' h
    rw [hc] at h
    injection h with h
    subst h
    rw [hc]
    exact ⟨hcmem, mm, hmmem, hmmtid.trans hctid.symm, hmmc⟩
  · intro h
    unfold svc_add_user_message at h ⊢
    cases hg : get_ticket_by_id s id with
    | none => rfl
    | some t =>
      rw [hg] at h
      obtain ⟨mN, su2, hadd, hm, hsu2⟩ :=
        add_support_message_found s id t hg "user" uid umsg uun none unow
      rw [hadd] at h
      dsimp only at h
      cases h
  · intro m' h
    unfold svc_add_user_message at h ⊢
    cases hg : get_ticket_by_id s id with
    | none => simp [hg] at h
    | some t =>
      rw [hg] at h
      obtain ⟨mN, su2, hadd, hm, hsu2⟩ :=
        add_support_message_found s id t hg "user" uid umsg uun none unow
      rw [hadd] at h ⊢
      dsimp only at h ⊢
      injection h with h
      subst h
      refine ⟨?_, ?_, ?_, ?_, ?_⟩
      · by_cases hcl : t.status = "closed"
        · rw [if_pos hcl]
          show mN ∈ su2.messages
          rw [hsu2]
          show mN ∈ s.messages ++ [mN]
          simp
        · rw [if_neg hcl]
          rw [hsu2]
          show mN ∈ s.messages ++ [mN]
          simp
      · rw [hm]
      · rw [hm]
      · intro u hu hum
        by_cases hcl : t.status = "closed"
        · rw [if_pos hcl] at hu
          obtain ⟨v, hv, hvid, hveq⟩ := updateTickets_matching su2 id
            (fun w => { w with status := "open", updated_at := some unow, closed_at := none })
            u hu hum
          rw [hsu2] at hv
          obtain ⟨w, hw, hwid, hweq⟩ := updateTickets_matching _ id
            (fun w => if ("user" : String) = "user"
              then { w with updated_at := some unow, last_user_message_at := some unow }
              else { w with updated_at := some unow, last_admin_message_at := some unow })
            v hv hvid
          subst hveq
          subst hweq
          exact ⟨rfl, rfl⟩
        · rw [if_neg hcl] at hu
          rw [hsu2] at hu
          obtain ⟨w, hw, hwid, hweq⟩ := updateTickets_matching _ id
            (fun w => if ("user" : String) = "user"
              then { w with updated_at := some unow, last_user_message_at := some unow }
              else { w with updated_at := some unow, last_admin_message_at := some unow })
            u hu hum
          subst hweq
          exact ⟨rfl, rfl⟩
      · intro t0 hg0 hcl0 u hu hum
        injection hg0 with hg0
        subst hg0
        rw [if_pos hcl0] at hu
        obtain ⟨v, hv, hvid, hveq⟩ := updateTickets_matching su2 id
          (fun w => { w with status := "open", updated_at := some unow, closed_at := none })
          u hu hum
        subst hveq
        rfl

/-- Witness for `multiStep_allOrNothing`: a user message targeting the
absent ticket 7 returns the absent value and leaves `sampleStore`
untouched. -/
theorem multiStep_allOrNothing_witness :
    (svc_add_user_message sampleStore 7 (some 2) "re" none 9).1 = none ∧
    (svc_add_user_message sampleStore 7 (some 2) "re" none 9).2 = sampleStore :=
  ⟨by decide,
   (multiStep_allOrNothing sampleStore 7 none (some 2) none "x" "re" none none 5 9).2.2.1
     (by decide)⟩
